import Mathlib

/-! Verification of the orchestration core of the PythonAIAgent daemon.

The definitions below are a shallow embedding of the repository's code:
`daemon.py` (ingestion, gating, action queue, execution, cleanup, daily
reports), `memory_manager.py` (SQLite-backed markers), and
`slack_tools.py` (messaging adapter).  Python dictionaries become
structures with `Option` fields, Python truthiness is modelled
explicitly (`truthy`, `pyOr`), SQLite tables become association lists,
datetimes become integer epoch seconds, and external collaborators
(Slack API, Gemini, mail, calendar) become environment-supplied
functions whose outcomes are `Except` values.  Side effects on external
collaborators are reified as an explicit `Dispatch` trace.
-/

namespace PMAgent

/-- Python truthiness of an optional string: `None` and `""` are falsy. -/
def truthy : Option String → Bool
  | some s => !s.isEmpty
  | none => false

/-- Python `a or b` on optional strings: returns `b` whenever `a` is falsy. -/
def pyOr (a b : Option String) : Option String :=
  if truthy a then a else b

/-- Python `x in xs` where `x` may be `None`: `None` is never a member. -/
def optMem (x : Option String) (l : List String) : Bool :=
  match x with
  | some s => l.contains s
  | none => false

/-- Action lifecycle statuses used in `pending_actions.json` (daemon.py). -/
inductive Status where
  | PENDING
  | APPROVED
  | EXECUTING
  | EXECUTED
  | FAILED
  | REJECTED
  | REJECTED_LOGGED
deriving DecidableEq, Repr

/-- The kind-specific `data` payload of a proposal / action
(daemon.py action schema, lines 249-271, plus alternate key spellings read
by the executor). Missing dictionary keys are `none`. -/
structure AData where
  target_channel_id : Option String := none
  channel_id : Option String := none
  channel : Option String := none
  target_user_ids : List String := []
  message_text : Option String := none
  text : Option String := none
  message : Option String := none
  reply_text : Option String := none
  thread_ts : Option String := none
  time_iso : Option String := none
  reminder_time : Option String := none
  time : Option String := none
  epic_title : Option String := none
  new_markdown_content : Option String := none
  question : Option String := none
  options : List String := []
  summary : Option String := none
  start_time : Option String := none
  end_time : Option String := none
  description : Option String := none
  attendees : List String := []
  recipient : Option String := none
  period : Option String := none
  report_text : Option String := none
  trigger_user_id : Option String := none
deriving DecidableEq, Repr

/-- Result of a `chat_scheduleMessage` wrapper call
(slack_tools.schedule_slack_message, lines 111-149). -/
inductive ScheduleResult where
  | noClient
  | ok (scheduled_message_id : String) (post_at : Int)
  | apiError (e : String)
  | badTime (e : String)
deriving DecidableEq, Repr

/-- The value bound to the Python variable `result` in
`execute_approved_actions_job`; Python stores `str(result)` (or
`"Success"` when falsy) into the action record, we keep the structured
value. -/
inductive RVal where
  | noneV
  | str (v : String)
  | sched (r : ScheduleResult)
  | ext (v : String)
deriving DecidableEq, Repr

/-- A queued action dictionary (one entry of `pending_actions.json`).
Proposals coming back from the planner are the same dictionaries with the
queue-only fields still at their defaults. `created_at` and
`executed_at` are epoch seconds (Python stores ISO strings). -/
structure Action where
  action_type : String
  reasoning : String := ""
  confidence : Option ℚ := none
  severity : Option String := none
  trigger_user_id : Option String := none
  data : AData := {}
  id : String := ""
  created_at : Int := 0
  status : Status := .PENDING
  executed_at : Option Int := none
  result : Option RVal := none
  error : Option String := none
deriving DecidableEq, Repr

/-- An inbound Slack message as used by `check_mentions_job` (the
`channel` field is filled in by the collection loop; `ts` is the
source-provided event id). -/
structure Mention where
  ts : String
  user : Option String := none
  channel : String := ""
  thread_ts : Option String := none
  text : String := ""
deriving DecidableEq, Repr

/-- The persistent SQLite store of `memory_manager.py`:
`processed_messages` rows (message_ts primary key, channel_id) and
`sent_reports` keys. -/
structure MemoryDB where
  processed : List (String × String) := []
  sent_reports : List String := []
deriving DecidableEq, Repr

/-- MemoryManager.is_message_processed: key lookup in `processed_messages`. -/
def is_message_processed (db : MemoryDB) (ts : String) : Bool :=
  (db.processed.find? (fun r => r.1 = ts)).isSome

/-- MemoryManager.add_processed_message: `INSERT OR IGNORE` on the
`message_ts` primary key — a row already present is left unchanged. -/
def add_processed_message (db : MemoryDB) (ts ch : String) : MemoryDB :=
  if is_message_processed db ts then db
  else { db with processed := db.processed ++ [(ts, ch)] }

/-- MemoryManager.has_sent_report: key lookup in `sent_reports`. -/
def has_sent_report (db : MemoryDB) (key : String) : Bool :=
  db.sent_reports.contains key

/-- MemoryManager.mark_report_sent: `INSERT OR REPLACE` keyed on
`report_key` (membership-wise: add the key if absent). -/
def mark_report_sent (db : MemoryDB) (key : String) : MemoryDB :=
  if has_sent_report db key then db
  else { db with sent_reports := db.sent_reports ++ [key] }

/-- Gating environment: the two environment variables consulted by the
validation and approval logic of `check_mentions_job`. -/
structure GateEnv where
  slackUserId : Option String := none
  slackBotUserId : Option String := none

/-- Triggering users of the cycle (daemon.py lines 358-362): the truthy
`user` fields of the filtered mentions. -/
def triggering_users (ms : List Mention) : List String :=
  ms.filterMap (fun m => if truthy m.user then m.user else none)

/-- Triggering channels of the cycle (daemon.py lines 358-364): the
nonempty `channel` fields of the filtered mentions. -/
def triggering_channels (ms : List Mention) : List String :=
  ms.filterMap (fun m => if m.channel.isEmpty then none else some m.channel)

/-- Target-channel resolution used by the gate
(`data.get('target_channel_id') or data.get('channel_id') or
data.get('channel')`, daemon.py line 373). -/
def gate_target_channel (d : AData) : Option String :=
  pyOr d.target_channel_id (pyOr d.channel_id d.channel)

/-- RULE 4 thread-ts inference (daemon.py lines 405-413): scan the
triggering mentions for one in the target channel whose
`thread_ts or ts` is truthy. -/
def infer_thread_ts (target : Option String) : List Mention → Option String
  | [] => none
  | m :: rest =>
    if target = some m.channel then
      let inferred := pyOr m.thread_ts (some m.ts)
      if truthy inferred then inferred else infer_thread_ts target rest
    else infer_thread_ts target rest

/-- The per-proposal validation pass of `check_mentions_job`
(daemon.py lines 366-416): RULE 1 drops question-shaped messages aimed
back at a triggering user/channel, RULE 2 drops clarifying questions to
the authorized operator when that operator triggered the cycle, RULE 3
drops messages that Slack-tag the bot itself, RULE 4 backfills a missing
`thread_ts`. Non-message kinds pass through unchanged. `none` means the
proposal is dropped. -/
def validate_action (env : GateEnv) (ms : List Mention) (a : Action) : Option Action :=
  if a.action_type = "send_message" ∨ a.action_type = "draft_reply" then
    let target := gate_target_channel a.data
    let message_text := a.data.message_text.getD ""
    let is_question := message_text.toList.contains '?'
    let targets_triggering_user := optMem target (triggering_users ms)
    let targets_triggering_channel := optMem target (triggering_channels ms)
    if is_question && (targets_triggering_user || targets_triggering_channel) then
      none
    else if (match env.slackUserId with
             | some mid =>
               decide (¬mid.isEmpty) && decide (target = some mid) && is_question
                 && (triggering_users ms).contains mid
             | none => false) then
      none
    else if (match env.slackBotUserId with
             | some bid =>
               decide (¬bid.isEmpty)
                 && decide (("<@" ++ bid ++ ">").toList <:+: message_text.toList)
             | none => false) then
      none
    else
      let d := if truthy a.data.thread_ts then a.data
               else match infer_thread_ts target ms with
                    | some t => { a.data with thread_ts := some t }
                    | none => a.data
      some { a with data := d }
  else
    some a

/-- Trigger-identity resolution for the approval decision
(daemon.py lines 437-446): `action.get('trigger_user_id') or
action['data'].get('trigger_user_id')`, falling back to the first
filtered mention's `user`; the fallback is written back into the action
only when truthy. Returns the identity used for authorization together
with the (possibly updated) action. -/
def resolve_trigger (ms : List Mention) (a : Action) : Option String × Action :=
  let t := pyOr a.trigger_user_id a.data.trigger_user_id
  if truthy t then (t, a)
  else
    match ms with
    | [] => (t, a)
    | m :: _ =>
      if truthy m.user then (m.user, { a with trigger_user_id := m.user })
      else (m.user, a)

/-- Authorization test (daemon.py lines 448-449):
`(trigger_user == authorized_user) if authorized_user else False`. -/
def is_authorized (trigger auth : Option String) : Bool :=
  match auth with
  | some a => if a.isEmpty then false else decide (trigger = some a)
  | none => false

/-- Status assignment per action kind (daemon.py lines 454-485):
replies need confidence above 0.7; the four mutating task kinds need the
authorized operator and confidence above 0.85; polls need the authorized
operator and confidence above 0.75; unknown kinds default to PENDING. -/
def assign_status (atype : String) (conf : ℚ) (isAuth : Bool) : Status :=
  if atype = "send_message" ∨ atype = "draft_reply" then
    if conf > 0.7 then .APPROVED else .PENDING
  else if atype = "schedule_reminder" ∨ atype = "update_context_task"
          ∨ atype = "add_calendar_event" ∨ atype = "send_email_summary" then
    if isAuth ∧ conf > 0.85 then .APPROVED else .PENDING
  else if atype = "post_slack_poll" then
    if isAuth ∧ conf > 0.75 then .APPROVED else .PENDING
  else .PENDING

/-- Fresh action id (daemon.py line 426):
current epoch milliseconds and the current queue length. -/
def mk_action_id (nowMs : Int) (qlen : Nat) : String :=
  toString nowMs ++ "_" ++ toString qlen

/-- One iteration of the enqueue loop of `check_mentions_job`
(daemon.py lines 425-487): stamp id and creation time, resolve the
trigger identity, decide the status, append to the queue. -/
def enqueue_action (env : GateEnv) (ms : List Mention) (nowMs nowT : Int)
    (q : List Action) (p : Action) : List Action :=
  let p1 := { p with id := mk_action_id nowMs q.length, created_at := nowT }
  let conf := p1.confidence.getD 0.5
  let (trigger, p2) := resolve_trigger ms p1
  let auth := is_authorized trigger env.slackUserId
  q ++ [{ p2 with status := assign_status p2.action_type conf auth }]

/-- The gate of `check_mentions_job` (daemon.py lines 356-490): validate
every proposal, then fold the survivors into the pending queue. -/
def gate_and_enqueue (env : GateEnv) (ms : List Mention) (nowMs nowT : Int)
    (proposals : List Action) (queue : List Action) : List Action :=
  (proposals.filterMap (validate_action env ms)).foldl
    (enqueue_action env ms nowMs nowT) queue

/-- Ingestion environment: the bot identity and the external
`has_bot_replied_in_thread` side query (channel, thread_ts ↦ answer). -/
structure IngestEnv where
  botUserId : Option String := none
  hasReplied : String → String → Bool := fun _ _ => false

/-- Python dict-comprehension upsert step for
`{m['ts']: m for m in all_mentions}`: a key already present keeps its
position but its value is replaced; a new key is appended. -/
def ts_upsert (l : List (String × Mention)) (m : Mention) : List (String × Mention) :=
  match l with
  | [] => [(m.ts, m)]
  | (k, v) :: rest =>
    if k = m.ts then (k, m) :: rest else (k, v) :: ts_upsert rest m

/-- Deduplication of the merged mention list by event id
(daemon.py lines 128-130): Python dict comprehension keyed on `ts`,
then `list(...values())`. -/
def unique_mentions (ms : List Mention) : List Mention :=
  (ms.foldl ts_upsert []).map (fun r => r.2)

/-- First ingestion filter (daemon.py lines 149-161): drop mentions
already marked processed; drop (and mark processed) the bot's own
messages. Returns the survivors and the updated store. -/
def filter_new (env : IngestEnv) : MemoryDB → List Mention → List Mention × MemoryDB
  | db, [] => ([], db)
  | db, m :: rest =>
    if is_message_processed db m.ts then filter_new env db rest
    else if (match env.botUserId with
             | some b => decide (¬b.isEmpty) && decide (m.user = some b)
             | none => false) then
      filter_new env (add_processed_message db m.ts m.channel) rest
    else
      let (l, db') := filter_new env db rest
      (m :: l, db')

/-- Second ingestion filter (daemon.py lines 168-184): for a threaded
reply (`thread_ts or ts` truthy and different from `ts`) where the bot
already replied in the thread, mark processed and drop. -/
def filter_replied (env : IngestEnv) : MemoryDB → List Mention → List Mention × MemoryDB
  | db, [] => ([], db)
  | db, m :: rest =>
    match pyOr m.thread_ts (some m.ts) with
    | some t =>
      if ¬t.isEmpty ∧ t ≠ m.ts then
        if env.hasReplied m.channel t then
          filter_replied env (add_processed_message db m.ts m.channel) rest
        else
          let (l, db') := filter_replied env db rest
          (m :: l, db')
      else
        let (l, db') := filter_replied env db rest
        (m :: l, db')
    | none =>
      let (l, db') := filter_replied env db rest
      (m :: l, db')

/-- Third ingestion filter (daemon.py lines 190-200): re-check the
processed marker right before processing. -/
def filter_processed_again (db : MemoryDB) (ms : List Mention) : List Mention :=
  ms.filter (fun m => !is_message_processed db m.ts)

/-- Marker write for every surviving mention
(daemon.py lines 223-225), done before the planner call. -/
def mark_all (db : MemoryDB) (ms : List Mention) : MemoryDB :=
  ms.foldl (fun d m => add_processed_message d m.ts m.channel) db

/-- The batch of mentions handed to the planner
(`filtered_mentions`, enrichment with thread context only adds a
read-only context field), together with the store as updated by the
filters. -/
def ingest_batch (env : IngestEnv) (db : MemoryDB) (ms : List Mention) :
    List Mention × MemoryDB :=
  let (nm, db1) := filter_new env db ms
  let (fm, db2) := filter_replied env db1 nm
  (filter_processed_again db2 fm, db2)

/-- parse_json_response (daemon.py lines 82-88): the outcome of
`json.loads` on the oracle's text is abstracted as an `Except` value;
a `JSONDecodeError` yields the empty action list. -/
def parse_json_response (parsed : Except String (List Action)) : List Action :=
  match parsed with
  | .ok l => l
  | .error _ => []

/-- check_mentions_job (daemon.py lines 90-497) from the deduplicated
mention list onwards: run the ingestion filters (early return on an
empty batch), write the processed markers, then call the planner —
whose combined call-and-parse outcome is the `planner` argument — and
gate and enqueue its proposals. A planner exception is caught by the
job's try/except and leaves the queue untouched. -/
def check_mentions_job (genv : GateEnv) (ienv : IngestEnv)
    (planner : Except String (List Action)) (nowMs nowT : Int)
    (db : MemoryDB) (ms : List Mention) (queue : List Action) :
    MemoryDB × List Action :=
  let (batch, db2) := ingest_batch ienv db ms
  if batch.isEmpty then (db2, queue)
  else
    let db3 := mark_all db2 batch
    match planner with
    | .error _ => (db3, queue)
    | .ok new_actions => (db3, gate_and_enqueue genv batch nowMs nowT new_actions queue)

/-- Collaborator calls made by the execution engine, reified as a trace. -/
inductive Dispatch where
  | schedule (channel text : String) (post_at : Int)
  | post (channel text : String) (thread_ts : Option String)
  | sectionUpdate (content : String)
  | emailSummary (recipient period : String)
  | poll (channel question : String) (options : List String)
  | calendar (summary : String)
  | email (recipient : String)
deriving DecidableEq, Repr

/-- Execution environment: environment variables, the current time, and
the outcomes of the external collaborator calls (an `Except.error` is a
Python exception propagating out of the call; the Slack wrappers catch
their own `SlackApiError`s and are embedded concretely below). -/
structure ExecEnv where
  slackBotUserId : Option String := none
  slackUserId : Option String := none
  userEmail : String := ""
  now : Int := 0
  clientOk : Bool := true
  parseIso : String → Option Int := fun _ => none
  apiScheduleMessage : String → String → Int → Except String String :=
    fun _ _ _ => .ok ""
  updateSection : String → Except String Unit := fun _ => .ok ()
  emailSummaryCall : String → String → Except String String := fun _ _ => .ok ""
  pollCall : String → String → List String → Except String String :=
    fun _ _ _ => .ok ""
  calendarCall : String → Except String String := fun _ => .ok ""
  emailCall : String → Except String Unit := fun _ => .ok ()

/-- command_processor.create_reminder_message (lines 180-198), as called
by the daemon (no extra context argument). -/
def create_reminder_message (core : String) (target_user_ids : List String) : String :=
  String.intercalate " " (target_user_ids.map (fun uid => "<@" ++ uid ++ ">"))
    ++ " 📋 Reminder from Mohit:\n" ++ core

/-- slack_tools.schedule_slack_message (lines 111-149): parse the ISO
time into a Unix timestamp and call `chat_scheduleMessage`; a
`SlackApiError` or a bad timestamp is returned as an error value, never
raised. The Slack API call, when reached, is recorded as a dispatch. -/
def schedule_slack_message (env : ExecEnv) (channel text scheduled_time : String) :
    ScheduleResult × List Dispatch :=
  if ¬env.clientOk then (.noClient, [])
  else
    match env.parseIso scheduled_time with
    | none => (.badTime scheduled_time, [])
    | some post_at =>
      match env.apiScheduleMessage channel text post_at with
      | .ok mid => (.ok mid post_at, [.schedule channel text post_at])
      | .error e => (.apiError e, [.schedule channel text post_at])

/-- slack_tools.send_slack_message (lines 86-109): returns without
posting when there is no client or when the target channel equals the
configured (truthy) bot user id; otherwise posts (API errors are
swallowed). The trace records whether a post was attempted. -/
def send_slack_message (env : ExecEnv) (channel text : String)
    (thread_ts : Option String) : List Dispatch :=
  if ¬env.clientOk then []
  else if (match env.slackBotUserId with
           | some b => decide (¬b.isEmpty) && decide (channel = b)
           | none => false) then []
  else [.post channel text thread_ts]

/-- The try-block body of `execute_approved_actions_job` for one action
(daemon.py lines 752-857): dispatch on the action kind; `Except.error`
is an exception reaching the per-action `except` handler (explicit
`raise KeyError`s for missing fields, `data['...']` direct indexing,
and collaborator exceptions). Memory-history logging is not modelled. -/
def dispatch_action (env : ExecEnv) (a : Action) : Except String RVal × List Dispatch :=
  let d := a.data
  if a.action_type = "schedule_reminder" then
    let msg := create_reminder_message a.reasoning d.target_user_ids
    match pyOr d.target_channel_id (pyOr d.channel_id d.channel) with
    | none => (.error "KeyError: target_channel_id/channel_id/channel not found", [])
    | some tc =>
      if tc.isEmpty then (.error "KeyError: target_channel_id/channel_id/channel not found", [])
      else
        match pyOr d.time_iso (pyOr d.reminder_time d.time) with
        | none => (.error "KeyError: time_iso/reminder_time/time not found", [])
        | some ti =>
          if ti.isEmpty then (.error "KeyError: time_iso/reminder_time/time not found", [])
          else
            let (r, ds) := schedule_slack_message env tc msg ti
            (.ok (.sched r), ds)
  else if a.action_type = "send_message" ∨ a.action_type = "draft_reply" then
    let target := pyOr d.target_channel_id
      (pyOr d.channel_id (pyOr d.channel env.slackUserId))
    let msg_text := pyOr d.message_text (pyOr d.text (pyOr d.message d.reply_text))
    if ¬truthy target then (.error "KeyError: Missing channel ID", [])
    else if ¬truthy msg_text then (.error "KeyError: Missing message text", [])
    else
      let bot_id := env.slackBotUserId.getD ""
      let m1 := msg_text.getD ""
      let m2 := if ¬bot_id.isEmpty then m1.replace ("<@" ++ bot_id ++ ">") "" else m1
      let m3 := m2.replace "@The Real PM" ""
      let tc := target.getD ""
      if ¬bot_id.isEmpty ∧ tc = bot_id then
        (.ok (.str "Skipped (Self-Target)"), [])
      else
        (.ok (.str "Message sent"), send_slack_message env tc m3 d.thread_ts)
  else if a.action_type = "update_context_task" then
    match d.new_markdown_content with
    | some content =>
      match env.updateSection content with
      | .ok _ => (.ok (.str "Context updated"), [.sectionUpdate content])
      | .error e => (.error e, [.sectionUpdate content])
    | none => (.ok (.str "Context updated"), [])
  else if a.action_type = "send_email_summary" then
    let recipient := d.recipient.getD env.userEmail
    let period := d.period.getD "weekly"
    match env.emailSummaryCall recipient period with
    | .ok v => (.ok (.ext v), [.emailSummary recipient period])
    | .error e => (.error e, [.emailSummary recipient period])
  else if a.action_type = "post_slack_poll" then
    match pyOr d.channel_id d.target_channel_id with
    | none => (.error "KeyError: Missing channel_id or target_channel_id for poll", [])
    | some pc =>
      if pc.isEmpty then (.error "KeyError: Missing channel_id or target_channel_id for poll", [])
      else
        match d.question with
        | none => (.error "KeyError: question", [])
        | some q =>
          match env.pollCall pc q d.options with
          | .ok v => (.ok (.ext v), [.poll pc q d.options])
          | .error e => (.error e, [.poll pc q d.options])
  else if a.action_type = "add_calendar_event" then
    match d.summary with
    | none => (.error "KeyError: summary", [])
    | some s =>
      match d.start_time with
      | none => (.error "KeyError: start_time", [])
      | some _ =>
        match env.calendarCall s with
        | .ok v => (.ok (.ext v), [.calendar s])
        | .error e => (.error e, [.calendar s])
  else if a.action_type = "weekly_report" then
    if ¬env.userEmail.isEmpty then
      match env.emailCall env.userEmail with
      | .ok _ => (.ok (.str ("Report sent to " ++ env.userEmail)), [.email env.userEmail])
      | .error e => (.error e, [.email env.userEmail])
    else (.ok (.str "No USER_EMAIL configured, report not sent"), [])
  else if a.action_type = "proactive_followup" ∨ a.action_type = "proactive_blocker_alert" then
    (.ok (.str "Proactive suggestion acknowledged"), [])
  else
    (.ok .noneV, [])

/-- One iteration of `execute_approved_actions_job`
(daemon.py lines 747-901): an APPROVED action is executed and moved to
EXECUTED (with result and execution time) or FAILED (with error text); a
REJECTED action is logged and moved to REJECTED_LOGGED; every other
action is untouched. -/
def exec_one (env : ExecEnv) (a : Action) : Action × List Dispatch :=
  if a.status = .APPROVED then
    match dispatch_action env a with
    | (.ok r, ds) =>
      ({ a with status := .EXECUTED, executed_at := some env.now, result := some r }, ds)
    | (.error e, ds) => ({ a with status := .FAILED, error := some e }, ds)
  else if a.status = .REJECTED then
    ({ a with status := .REJECTED_LOGGED }, [])
  else (a, [])

/-- execute_approved_actions_job (daemon.py lines 740-905): process every
queue entry in order; return the written-back queue and the concatenated
dispatch trace. -/
def execute_approved_actions_job (env : ExecEnv) (queue : List Action) :
    List Action × List Dispatch :=
  ((queue.map (exec_one env)).map Prod.fst,
   ((queue.map (exec_one env)).map Prod.snd).flatten)

/-- cleanup_queue_job (daemon.py lines 550-594): keep PENDING actions
younger than 3 days; keep terminal actions (EXECUTED, FAILED,
REJECTED_LOGGED) whose `executed_at or created_at` is less than an hour
old; keep everything else. Timestamps are epoch seconds and
`timedelta.days` is flooring division. -/
def cleanup_queue_job (now : Int) (queue : List Action) : List Action :=
  if queue.isEmpty then queue
  else queue.filter (fun a =>
    if a.status = .PENDING then
      decide ((now - a.created_at).fdiv 86400 < 3)
    else if a.status = .EXECUTED ∨ a.status = .FAILED ∨ a.status = .REJECTED_LOGGED then
      decide (now - (a.executed_at.getD a.created_at) < 3600)
    else true)

/-- Report-job environment: whether the external report generation (LLM
call, context read, channel-list split) succeeds, the generated text,
the first configured channel (`SLACK_CHANNELS.split()[0]`; `none` raises
IndexError before anything is queued), and the clock. -/
structure ReportEnv where
  genOk : Bool := true
  reportText : String := ""
  firstChannel : Option String := none
  nowS : Int := 0
  nowT : Int := 0

/-- Report key for a daily slot (daemon.py line 656). -/
def daily_report_key (ty today : String) : String :=
  "daily_" ++ ty ++ "_" ++ today

/-- run_daily_status_job (daemon.py lines 644-702): skip when the
report marker for today's key is already present; otherwise generate the
report (any exception before the queue append is caught and nothing is
queued or marked), append an auto-approved send_message action, and mark
the report sent. The returned trace lists the keys of reports actually
generated and queued by this call. -/
def run_daily_status_job (env : ReportEnv) (ty today : String)
    (db : MemoryDB) (q : List Action) : MemoryDB × List Action × List String :=
  let report_key := daily_report_key ty today
  if has_sent_report db report_key then (db, q, [])
  else if ¬env.genOk then (db, q, [])
  else
    match env.firstChannel with
    | none => (db, q, [])
    | some ch =>
      let action : Action :=
        { id := "daily-" ++ ty ++ "-" ++ toString env.nowS
          action_type := "send_message"
          reasoning := "Daily " ++ ty ++ " Update"
          status := .APPROVED
          created_at := env.nowT
          confidence := some 0.95
          severity := some "low"
          data := { message_text := some env.reportText
                    target_channel_id := some ch } }
      (mark_report_sent db report_key, q ++ [action], [report_key])

/-- One guarded slot of the startup catch-up pass: when the hour gate is
open and the report marker for the slot's key is absent, run the daily
status job (which re-checks the marker itself) and append its trace. -/
def catch_up_slot (env : ReportEnv) (gate : Bool) (ty today : String)
    (s : MemoryDB × List Action × List String) :
    MemoryDB × List Action × List String :=
  if gate ∧ ¬has_sent_report s.1 (daily_report_key ty today) then
    let r := run_daily_status_job env ty today s.1 s.2.1
    (r.1, r.2.1, s.2.2 ++ r.2.2)
  else s

/-- check_and_send_missed_reports (daemon.py lines 704-737): the startup
catch-up pass. After 10:00 run the morning report if its marker is
absent; after 18:00 run the evening report if its marker is absent. -/
def check_and_send_missed_reports (env : ReportEnv) (current_hour : Int)
    (today : String) (db : MemoryDB) (q : List Action) :
    MemoryDB × List Action × List String :=
  catch_up_slot env (decide (current_hour ≥ 18)) "evening" today
    (catch_up_slot env (decide (current_hour ≥ 10)) "morning" today (db, q, []))

/-- Execution environment for the past-due reminder scenario: the
current time is far later than the scheduled time parsed from the
action's ISO string, and the Slack schedule API succeeds. -/
def c7_env : ExecEnv :=
  { now := 1700000000
    parseIso := fun s => if s = "2020-01-01T00:00:00" then some 1577836800 else none
    apiScheduleMessage := fun _ _ _ => .ok "Q123" }

/-- An APPROVED schedule_reminder whose dispatch time lies in the past
at execution time. -/
def c7_action : Action :=
  { action_type := "schedule_reminder"
    reasoning := "ship"
    status := .APPROVED
    data := { target_channel_id := some "C1"
              time_iso := some "2020-01-01T00:00:00"
              target_user_ids := ["U1"] } }

/-- Invariant carried through catch-up slots: the trace mentions any
given key at most once, and every key in the trace is marked sent in the
store. -/
def GoodTrace (key : String) (s : MemoryDB × List Action × List String) : Prop :=
  List.count key s.2.2 ≤ 1 ∧ (key ∈ s.2.2 → has_sent_report s.1 key = true)

/-! Helper lemmas about the processed-marker store. -/

lemma is_processed_add_self (db : MemoryDB) (ts ch : String) :
    is_message_processed (add_processed_message db ts ch) ts = true := by
  unfold add_processed_message
  split
  · assumption
  · unfold is_message_processed
    rw [List.find?_append]
    rcases h : db.processed.find? (fun r => decide (r.1 = ts)) with _ | r <;>
      simp [h, Option.or, List.find?]

lemma add_processed_of_processed (db : MemoryDB) (ts ch : String)
    (h : is_message_processed db ts = true) :
    add_processed_message db ts ch = db := by
  unfold add_processed_message
  rw [if_pos h]

lemma is_processed_add_mono (db : MemoryDB) (ts ts' ch : String)
    (h : is_message_processed db ts = true) :
    is_message_processed (add_processed_message db ts' ch) ts = true := by
  unfold add_processed_message
  split
  · exact h
  · unfold is_message_processed at h ⊢
    simp only [List.find?_append]
    rcases hf : db.processed.find? (fun r => r.1 = ts) with _ | r
    · simp [is_message_processed, hf] at h
    · simp [Option.or, hf]

lemma filter_new_snd_mono (env : IngestEnv) (ms : List Mention) :
    ∀ (db : MemoryDB) (ts : String), is_message_processed db ts = true →
      is_message_processed (filter_new env db ms).2 ts = true := by
  induction ms with
  | nil => intro db ts h; simpa [filter_new] using h
  | cons m rest ih =>
    intro db ts h
    unfold filter_new
    split
    · exact ih db ts h
    · split
      · exact ih _ ts (is_processed_add_mono db ts m.ts m.channel h)
      · rcases hf : filter_new env db rest with ⟨l, db'⟩
        have := ih db ts h
        rw [hf] at this
        simpa [hf] using this

lemma filter_replied_snd_mono (env : IngestEnv) (ms : List Mention) :
    ∀ (db : MemoryDB) (ts : String), is_message_processed db ts = true →
      is_message_processed (filter_replied env db ms).2 ts = true := by
  induction ms with
  | nil => intro db ts h; simpa [filter_replied] using h
  | cons m rest ih =>
    intro db ts h
    have hrec : is_message_processed
        ((match filter_replied env db rest with
          | (l, db') => (m :: l, db') : List Mention × MemoryDB)).2 ts = true := by
      rcases hf : filter_replied env db rest with ⟨l, db'⟩
      have h2 := ih db ts h
      rw [hf] at h2
      simpa [hf] using h2
    unfold filter_replied
    split
    · split
      · split
        · exact ih _ ts (is_processed_add_mono db ts m.ts m.channel h)
        · exact hrec
      · exact hrec
    · exact hrec

lemma mem_ingest_batch_not_processed (env : IngestEnv) (db : MemoryDB)
    (ms : List Mention) (m : Mention) (h : m ∈ (ingest_batch env db ms).1) :
    is_message_processed (ingest_batch env db ms).2 m.ts = false := by
  unfold ingest_batch at h ⊢
  rcases h1 : filter_new env db ms with ⟨nm, db1⟩
  rcases h2 : filter_replied env db1 nm with ⟨fm, db2⟩
  simp only [h1, h2, filter_processed_again] at h ⊢
  have := (List.mem_filter.mp h).2
  simpa using this

lemma mark_all_mono (l : List Mention) :
    ∀ (db : MemoryDB) (ts : String), is_message_processed db ts = true →
      is_message_processed (mark_all db l) ts = true := by
  induction l with
  | nil => intro db ts h; simpa [mark_all] using h
  | cons m rest ih =>
    intro db ts h
    have : mark_all db (m :: rest) = mark_all (add_processed_message db m.ts m.channel) rest := rfl
    rw [this]
    exact ih _ ts (is_processed_add_mono db ts m.ts m.channel h)

lemma mark_all_marks (l : List Mention) :
    ∀ (db : MemoryDB) (m : Mention), m ∈ l →
      is_message_processed (mark_all db l) m.ts = true := by
  induction l with
  | nil => intro db m h; cases h
  | cons a rest ih =>
    intro db m h
    have hstep : mark_all db (a :: rest) = mark_all (add_processed_message db a.ts a.channel) rest := rfl
    rcases List.mem_cons.mp h with h | h
    · subst h
      rw [hstep]
      exact mark_all_mono rest _ m.ts (is_processed_add_self db m.ts m.channel)
    · rw [hstep]
      exact ih _ m h

/-- C2 — at-most-once ingestion: (i) the ProcessedMarker write is
idempotent — a second `add_processed_message` for the same event id
leaves the stored row unchanged, whatever channel the second write
carries; (ii) an event whose id is already marked processed never
appears in the batch handed to the planner; (iii) after a cycle, every
batch member is marked processed in the resulting store, so a repeated
cycle (or a restart) can never re-surface it. -/
theorem C2_at_most_once_ingestion (db : MemoryDB) (ts ch1 ch2 : String)
    (env : IngestEnv) (ms : List Mention) (m : Mention) :
    (add_processed_message (add_processed_message db ts ch1) ts ch2
        = add_processed_message db ts ch1)
    ∧ (is_message_processed db m.ts = true → m ∉ (ingest_batch env db ms).1)
    ∧ (m ∈ (ingest_batch env db ms).1 →
        is_message_processed
          (mark_all (ingest_batch env db ms).2 (ingest_batch env db ms).1) m.ts = true) := by
  refine ⟨?_, ?_, ?_⟩
  · exact add_processed_of_processed _ ts ch2 (is_processed_add_self db ts ch1)
  · intro h hmem
    have h2 : is_message_processed (ingest_batch env db ms).2 m.ts = true := by
      unfold ingest_batch
      rcases h1 : filter_new env db ms with ⟨nm, db1⟩
      rcases hr : filter_replied env db1 nm with ⟨fm, db2⟩
      simp only [h1, hr]
      have hdb1 := filter_new_snd_mono env ms db m.ts h
      rw [h1] at hdb1
      have hdb2 := filter_replied_snd_mono env nm db1 m.ts hdb1
      rw [hr] at hdb2
      exact hdb2
    have h3 := mem_ingest_batch_not_processed env db ms m hmem
    rw [h2] at h3
    cases h3
  · intro hmem
    exact mark_all_marks _ _ m hmem

/-- C2 witness: a store already holding the marker for event id "1"
neither re-surfaces that event nor duplicates the row, and a fresh event
entering the batch ends up marked. -/
theorem C2_at_most_once_ingestion_witness :
    (add_processed_message (add_processed_message ⟨[("1", "C1")], []⟩ "1" "C1") "1" "C2"
        = add_processed_message ⟨[("1", "C1")], []⟩ "1" "C1")
    ∧ (Mention.mk "1" (some "U1") "C1" none "" ∉
        (ingest_batch {} ⟨[("1", "C1")], []⟩ [Mention.mk "1" (some "U1") "C1" none ""]).1)
    ∧ is_message_processed
        (mark_all (ingest_batch {} (⟨[], []⟩ : MemoryDB) [Mention.mk "2" (some "U1") "C1" none ""]).2
          (ingest_batch {} (⟨[], []⟩ : MemoryDB) [Mention.mk "2" (some "U1") "C1" none ""]).1)
        "2" = true :=
  ⟨(C2_at_most_once_ingestion ⟨[("1", "C1")], []⟩ "1" "C1" "C2" {} []
      (Mention.mk "1" (some "U1") "C1" none "")).1,
   (C2_at_most_once_ingestion ⟨[("1", "C1")], []⟩ "1" "C1" "C2" {}
      [Mention.mk "1" (some "U1") "C1" none ""]
      (Mention.mk "1" (some "U1") "C1" none "")).2.1 (by decide),
   (C2_at_most_once_ingestion (⟨[], []⟩ : MemoryDB) "1" "C1" "C2" {}
      [Mention.mk "2" (some "U1") "C1" none ""]
      (Mention.mk "2" (some "U1") "C1" none "")).2.2 (by decide)⟩

/-- C8 — planner parse failure is contained: `parse_json_response`
yields the empty proposal list on a parse error, the cycle appends
nothing to the queue and does not raise, and every event ingested in the
cycle stays marked processed (the markers are written before the planner
call). -/
theorem C8_parse_failure_contained (genv : GateEnv) (ienv : IngestEnv) (e : String)
    (nowMs nowT : Int) (db : MemoryDB) (ms : List Mention) (queue : List Action) :
    parse_json_response (.error e) = []
    ∧ (check_mentions_job genv ienv (.error e) nowMs nowT db ms queue).2 = queue
    ∧ (∀ m ∈ (ingest_batch ienv db ms).1,
        is_message_processed
          (check_mentions_job genv ienv (.error e) nowMs nowT db ms queue).1 m.ts = true) := by
  refine ⟨rfl, ?_, ?_⟩
  · rcases hb : ingest_batch ienv db ms with ⟨batch, db2⟩
    unfold check_mentions_job
    simp only [hb]
    by_cases he : batch.isEmpty <;> simp [he]
  · intro m hm
    rcases hb : ingest_batch ienv db ms with ⟨batch, db2⟩
    rw [hb] at hm
    unfold check_mentions_job
    simp only [hb]
    by_cases he : batch.isEmpty
    · rw [List.isEmpty_iff] at he
      rw [he] at hm
      cases hm
    · simpa [he] using mark_all_marks _ db2 m hm

/-- C8 witness: with one fresh mention and a planner failure, the queue
is untouched and the mention is marked processed. -/
theorem C8_parse_failure_contained_witness :
    parse_json_response (.error "boom") = []
    ∧ (check_mentions_job {} {} (.error "boom") 5 7 (⟨[], []⟩ : MemoryDB)
        [Mention.mk "2" (some "U1") "C1" none ""] []).2 = []
    ∧ is_message_processed
        (check_mentions_job {} {} (.error "boom") 5 7 (⟨[], []⟩ : MemoryDB)
          [Mention.mk "2" (some "U1") "C1" none ""] []).1 "2" = true :=
  ⟨(C8_parse_failure_contained {} {} "boom" 5 7 (⟨[], []⟩ : MemoryDB)
      [Mention.mk "2" (some "U1") "C1" none ""] []).1,
   (C8_parse_failure_contained {} {} "boom" 5 7 (⟨[], []⟩ : MemoryDB)
      [Mention.mk "2" (some "U1") "C1" none ""] []).2.1,
   (C8_parse_failure_contained {} {} "boom" 5 7 (⟨[], []⟩ : MemoryDB)
      [Mention.mk "2" (some "U1") "C1" none ""] []).2.2
     (Mention.mk "2" (some "U1") "C1" none "") (by decide)⟩

/-! Helper lemmas about gating. -/

lemma resolve_trigger_fst_stamp (ms : List Mention) (p : Action) (i : String) (t : Int) :
    (resolve_trigger ms { p with id := i, created_at := t }).1 = (resolve_trigger ms p).1 := by
  unfold resolve_trigger
  dsimp only
  cases ms with
  | nil => split <;> rfl
  | cons m rest =>
    split
    · rfl
    · dsimp only
      split <;> rfl

lemma resolve_trigger_snd_type (ms : List Mention) (p : Action) :
    (resolve_trigger ms p).2.action_type = p.action_type := by
  unfold resolve_trigger
  dsimp only
  cases ms with
  | nil => split <;> rfl
  | cons m rest =>
    split
    · rfl
    · dsimp only
      split <;> rfl

lemma assign_status_unauth (atype : String) (conf : ℚ)
    (hk : atype = "schedule_reminder" ∨ atype = "update_context_task"
      ∨ atype = "add_calendar_event" ∨ atype = "send_email_summary"
      ∨ atype = "post_slack_poll") :
    assign_status atype conf false ≠ Status.APPROVED := by
  rcases hk with h | h | h | h | h <;> subst h <;> simp [assign_status]

lemma is_authorized_false (trigger : Option String) (auth : String)
    (h : trigger ≠ some auth) : is_authorized trigger (some auth) = false := by
  unfold is_authorized
  by_cases he : auth.isEmpty <;> simp [he, h]

/-- C1 — authorization boundary: for every proposal of a state-mutating
kind (schedule_reminder, update_context_task, add_calendar_event,
send_email_summary, post_slack_poll), if the resolved triggering identity
is not the configured authorized operator, every action the enqueue step
adds to the queue has a status other than APPROVED, for all confidence
values. -/
theorem C1_authorization_boundary (env : GateEnv) (ms : List Mention)
    (nowMs nowT : Int) (q : List Action) (p : Action) (auth : String)
    (hkind : p.action_type = "schedule_reminder" ∨ p.action_type = "update_context_task"
      ∨ p.action_type = "add_calendar_event" ∨ p.action_type = "send_email_summary"
      ∨ p.action_type = "post_slack_poll")
    (hauth : env.slackUserId = some auth)
    (htrig : (resolve_trigger ms p).1 ≠ some auth) :
    ∀ a ∈ enqueue_action env ms nowMs nowT q p, a ∈ q ∨ a.status ≠ Status.APPROVED := by
  intro a ha
  unfold enqueue_action at ha
  dsimp only at ha
  rcases hres : resolve_trigger ms
      { p with id := mk_action_id nowMs q.length, created_at := nowT } with ⟨trigger, p2⟩
  rw [hres] at ha
  dsimp only at ha
  rw [List.mem_append] at ha
  rcases ha with ha | ha
  · exact Or.inl ha
  · right
    rw [List.mem_singleton] at ha
    subst ha
    dsimp only
    have htr : trigger = (resolve_trigger ms p).1 := by
      rw [← resolve_trigger_fst_stamp ms p (mk_action_id nowMs q.length) nowT, hres]
    have htyp : p2.action_type = p.action_type := by
      have h2 := resolve_trigger_snd_type ms
        { p with id := mk_action_id nowMs q.length, created_at := nowT }
      rw [hres] at h2
      exact h2
    rw [hauth, is_authorized_false trigger auth (htr ▸ htrig), htyp]
    exact assign_status_unauth p.action_type _ hkind

/-- C1 witness: a schedule_reminder proposal triggered by "U2" while the
authorized operator is "U1" is enqueued with a non-APPROVED status even
at confidence 1. -/
theorem C1_authorization_boundary_witness :
    Action.mk "schedule_reminder" "" (some 1) none (some "U2") {} "5_0" 7
        Status.PENDING none none none
      ∈ ([] : List Action) ∨
    (Action.mk "schedule_reminder" "" (some 1) none (some "U2") {} "5_0" 7
        Status.PENDING none none none).status ≠ Status.APPROVED :=
  C1_authorization_boundary { slackUserId := some "U1" } [] 5 7 []
    (Action.mk "schedule_reminder" "" (some 1) none (some "U2") {} "" 0
      Status.PENDING none none none) "U1"
    (Or.inl rfl) rfl (by decide)
    (Action.mk "schedule_reminder" "" (some 1) none (some "U2") {} "5_0" 7
      Status.PENDING none none none)
    (by decide)

/-- C3 — no self-answer loop: a message-kind proposal (send_message or
draft_reply) whose message text contains a question mark and whose
resolved target channel equals a triggering user or a triggering channel
of the cycle is dropped by the validation pass and therefore contributes
nothing to the action queue, for all confidence values. -/
theorem C3_no_self_loop (env : GateEnv) (ms : List Mention) (nowMs nowT : Int)
    (ps1 ps2 : List Action) (p : Action) (q : List Action) (u : String)
    (hkind : p.action_type = "send_message" ∨ p.action_type = "draft_reply")
    (hq : (p.data.message_text.getD "").toList.contains '?' = true)
    (htarget : gate_target_channel p.data = some u)
    (htrig : u ∈ triggering_users ms ∨ u ∈ triggering_channels ms) :
    validate_action env ms p = none
    ∧ gate_and_enqueue env ms nowMs nowT (ps1 ++ p :: ps2) q
        = gate_and_enqueue env ms nowMs nowT (ps1 ++ ps2) q := by
  have hdrop : validate_action env ms p = none := by
    unfold validate_action
    rw [if_pos hkind]
    dsimp only
    rw [htarget, hq]
    have hmem : (optMem (some u) (triggering_users ms)
        || optMem (some u) (triggering_channels ms)) = true := by
      rcases htrig with h | h
      · have hx : optMem (some u) (triggering_users ms) = true := by
          simpa [optMem, List.contains, List.elem_iff] using h
        simp [hx]
      · have hx : optMem (some u) (triggering_channels ms) = true := by
          simpa [optMem, List.contains, List.elem_iff] using h
        simp [hx]
    rw [hmem]
    rfl
  refine ⟨hdrop, ?_⟩
  unfold gate_and_enqueue
  rw [List.filterMap_append, List.filterMap_append, List.filterMap_cons_none hdrop]

/-- C3 witness: a clarifying question aimed back at the triggering
channel "C1" is dropped and the queue built from the remaining proposals
is unchanged. -/
theorem C3_no_self_loop_witness :
    validate_action { slackUserId := some "U1" } [Mention.mk "1" (some "U1") "C1" none ""]
        (Action.mk "send_message" "" (some 1) none none
          { target_channel_id := some "C1", message_text := some "what do you mean?" }
          "" 0 Status.PENDING none none none) = none
    ∧ gate_and_enqueue { slackUserId := some "U1" } [Mention.mk "1" (some "U1") "C1" none ""]
        5 7
        ([] ++ (Action.mk "send_message" "" (some 1) none none
          { target_channel_id := some "C1", message_text := some "what do you mean?" }
          "" 0 Status.PENDING none none none) :: []) []
      = gate_and_enqueue { slackUserId := some "U1" } [Mention.mk "1" (some "U1") "C1" none ""]
        5 7 ([] ++ []) [] :=
  C3_no_self_loop { slackUserId := some "U1" } [Mention.mk "1" (some "U1") "C1" none ""]
    5 7 [] []
    (Action.mk "send_message" "" (some 1) none none
      { target_channel_id := some "C1", message_text := some "what do you mean?" }
      "" 0 Status.PENDING none none none)
    [] "C1" (Or.inl rfl) (by decide) (by decide) (Or.inr (by decide))

/-! Helper lemmas about the execution engine. -/

lemma exec_one_status_not_approved (env : ExecEnv) (a : Action) :
    (exec_one env a).1.status ≠ Status.APPROVED := by
  unfold exec_one
  split
  · rcases hd : dispatch_action env a with ⟨r | e, ds⟩ <;> simp [hd]
  · split <;> simp_all

lemma exec_one_no_dispatch (env : ExecEnv) (a : Action)
    (h : a.status ≠ Status.APPROVED) : (exec_one env a).2 = [] := by
  unfold exec_one
  rw [if_neg (by simpa using h)]
  split <;> rfl

/-- C4 — idempotent execution: running the execution job on the output
queue of a previous run performs zero collaborator dispatches, because
the first run leaves no action in APPROVED status and only APPROVED
actions are dispatched; in particular an EXECUTED action is never
re-dispatched. -/
theorem C4_idempotent_execution (env1 env2 : ExecEnv) (q : List Action) :
    (execute_approved_actions_job env2 (execute_approved_actions_job env1 q).1).2 = [] := by
  unfold execute_approved_actions_job
  rw [List.flatten_eq_nil_iff]
  intro l hl
  rcases List.mem_map.mp hl with ⟨pr, hpr, hl2⟩
  rcases List.mem_map.mp hpr with ⟨b, hb, hpr2⟩
  rcases List.mem_map.mp hb with ⟨c, hc, hb2⟩
  rcases List.mem_map.mp hc with ⟨d, hd, hc2⟩
  subst hl2 hpr2 hb2 hc2
  exact exec_one_no_dispatch env2 _ (exec_one_status_not_approved env1 d)

lemma enqueue_action_append (env : GateEnv) (ms : List Mention)
    (nowMs nowT : Int) (q : List Action) (v : Action) :
    ∃ x, enqueue_action env ms nowMs nowT q v = q ++ [x] :=
  ⟨_, rfl⟩

lemma gate_and_enqueue_append_only (env : GateEnv) (ms : List Mention)
    (nowMs nowT : Int) (ps : List Action) (q : List Action) :
    ∃ l, gate_and_enqueue env ms nowMs nowT ps q = q ++ l := by
  unfold gate_and_enqueue
  generalize ps.filterMap (validate_action env ms) = vs
  induction vs generalizing q with
  | nil => exact ⟨[], by simp⟩
  | cons v rest ih =>
    rcases enqueue_action_append env ms nowMs nowT q v with ⟨x, hx⟩
    rcases ih (enqueue_action env ms nowMs nowT q v) with ⟨t, ht⟩
    refine ⟨[x] ++ t, ?_⟩
    rw [List.foldl_cons, ht, hx, List.append_assoc]

/-- C5 — terminal statuses are immutable: (i) the execution job leaves
an action whose status is EXECUTED, FAILED or REJECTED_LOGGED entirely
unchanged and dispatches nothing for it; (ii) queue cleanup only ever
removes actions, it never alters one; (iii) gating only appends new
actions after the existing queue, so it never touches an existing
action either. -/
theorem C5_terminal_statuses_immutable (env : ExecEnv) (a : Action) (now : Int)
    (q : List Action) (b : Action) (genv : GateEnv) (ms : List Mention)
    (nowMs nowT : Int) (ps : List Action) :
    (a.status = Status.EXECUTED ∨ a.status = Status.FAILED
        ∨ a.status = Status.REJECTED_LOGGED → exec_one env a = (a, []))
    ∧ (b ∈ cleanup_queue_job now q → b ∈ q)
    ∧ (∃ l, gate_and_enqueue genv ms nowMs nowT ps q = q ++ l) := by
  refine ⟨?_, ?_, gate_and_enqueue_append_only genv ms nowMs nowT ps q⟩
  · intro h
    rcases h with h | h | h <;> simp [exec_one, h]
  · intro hb
    unfold cleanup_queue_job at hb
    split at hb
    · exact hb
    · exact (List.mem_filter.mp hb).1

/-- C5 witness: a concrete EXECUTED action survives the execution job
untouched, a surviving cleanup entry was already in the queue, and a
gate run on a concrete queue only appends. -/
theorem C5_terminal_statuses_immutable_witness :
    exec_one {} (Action.mk "send_message" "" none none none {} "x" 0
        Status.EXECUTED none none none)
      = (Action.mk "send_message" "" none none none {} "x" 0
        Status.EXECUTED none none none, [])
    ∧ (Action.mk "send_message" "" none none none {} "y" 0
        Status.PENDING none none none)
      ∈ [Action.mk "send_message" "" none none none {} "y" 0
        Status.PENDING none none none]
    ∧ (∃ l, gate_and_enqueue {} [] 5 7 []
        [Action.mk "send_message" "" none none none {} "y" 0
          Status.PENDING none none none]
      = [Action.mk "send_message" "" none none none {} "y" 0
          Status.PENDING none none none] ++ l) :=
  ⟨(C5_terminal_statuses_immutable {} (Action.mk "send_message" "" none none none {} "x" 0
        Status.EXECUTED none none none) 0 [] (Action.mk "send_message" "" none none none {} "y" 0
        Status.PENDING none none none) {} [] 5 7 []).1 (Or.inl rfl),
   (C5_terminal_statuses_immutable {} (Action.mk "send_message" "" none none none {} "x" 0
        Status.EXECUTED none none none) 0
        [Action.mk "send_message" "" none none none {} "y" 0 Status.PENDING none none none]
        (Action.mk "send_message" "" none none none {} "y" 0
        Status.PENDING none none none) {} [] 5 7 []).2.1 (by decide),
   (C5_terminal_statuses_immutable {} (Action.mk "send_message" "" none none none {} "x" 0
        Status.EXECUTED none none none) 0
        [Action.mk "send_message" "" none none none {} "y" 0 Status.PENDING none none none]
        (Action.mk "send_message" "" none none none {} "y" 0
        Status.PENDING none none none) {} [] 5 7 []).2.2⟩

/-- C10 — no message to self: (i) `send_slack_message` never posts when
the target channel equals the configured (nonempty) bot user id,
whatever the client state; (ii) for an APPROVED send_message/draft_reply
action whose resolved target channel is the bot id and whose message
text is present, the execution engine records "Skipped (Self-Target)",
marks the action EXECUTED, and dispatches nothing. -/
theorem C10_never_posts_to_self (env : ExecEnv) (ch text : String)
    (tts : Option String) (a : Action) (b : String)
    (hb : env.slackBotUserId = some b) (hbne : b ≠ "") (hch : ch = b)
    (hstatus : a.status = Status.APPROVED)
    (hkind : a.action_type = "send_message" ∨ a.action_type = "draft_reply")
    (hnotrem : a.action_type ≠ "schedule_reminder")
    (htarget : pyOr a.data.target_channel_id
        (pyOr a.data.channel_id (pyOr a.data.channel env.slackUserId)) = some b)
    (hmsg : truthy (pyOr a.data.message_text
        (pyOr a.data.text (pyOr a.data.message a.data.reply_text))) = true) :
    send_slack_message env ch text tts = []
    ∧ exec_one env a
        = ({ a with
              status := Status.EXECUTED,
              executed_at := some env.now,
              result := some (RVal.str "Skipped (Self-Target)") }, []) := by
  have hbe : b.isEmpty = false := by
    rcases hbool : b.isEmpty
    · rfl
    · exact absurd ((String.isEmpty_iff b).mp hbool) hbne
  constructor
  · unfold send_slack_message
    by_cases hcl : env.clientOk
    · rw [if_neg (by simpa using hcl)]
      rw [hb, if_pos]
      simp [hbe, hch]
    · rw [if_pos (by simpa using hcl)]
  · have hdisp : dispatch_action env a
        = (.ok (.str "Skipped (Self-Target)"), []) := by
      unfold dispatch_action
      rw [if_neg (by simp [hnotrem]), if_pos hkind]
      dsimp only
      rw [htarget]
      have h1 : ¬¬(truthy (some b) = true) := by simp [truthy, hbe]
      rw [if_neg h1]
      have h2 : ¬¬(truthy (pyOr a.data.message_text
          (pyOr a.data.text (pyOr a.data.message a.data.reply_text))) = true) := by
        simp [hmsg]
      rw [if_neg h2, hb]
      dsimp only [Option.getD]
      rw [if_pos ⟨by simp [hbe], rfl⟩]
    unfold exec_one
    rw [if_pos (by simpa using hstatus), hdisp]

/-- C10 witness: a draft_reply aimed at the bot id "B1" is skipped with
the distinct result and no dispatch, and the messaging adapter refuses
to post to "B1". -/
theorem C10_never_posts_to_self_witness :
    send_slack_message { slackBotUserId := some "B1" } "B1" "hello" none = []
    ∧ exec_one { slackBotUserId := some "B1" }
        (Action.mk "draft_reply" "" none none none
          { target_channel_id := some "B1", message_text := some "hi" }
          "i1" 0 Status.APPROVED none none none)
      = ({ Action.mk "draft_reply" "" none none none
            { target_channel_id := some "B1", message_text := some "hi" }
            "i1" 0 Status.APPROVED none none none with
          status := Status.EXECUTED,
          executed_at := some ({ slackBotUserId := some "B1" } : ExecEnv).now,
          result := some (RVal.str "Skipped (Self-Target)") }, []) :=
  C10_never_posts_to_self { slackBotUserId := some "B1" } "B1" "hello" none
    (Action.mk "draft_reply" "" none none none
      { target_channel_id := some "B1", message_text := some "hi" }
      "i1" 0 Status.APPROVED none none none)
    "B1" rfl (by decide) rfl rfl (Or.inr rfl) (by decide) (by decide) (by decide)

/-- C7 — the daemon executor has no past-due check: executing an
APPROVED schedule_reminder whose absolute dispatch time (epoch
1577836800) is already in the past at execution time (now = 1700000000)
still calls the Slack schedule API with the stale timestamp, marks the
action EXECUTED with the schedule result, and records no
"skipped: past-due" result of any form. -/
theorem C7_past_due_reminder_still_dispatched :
    (1577836800 : Int) < c7_env.now
    ∧ (exec_one c7_env c7_action).2
        = [Dispatch.schedule "C1" (create_reminder_message "ship" ["U1"]) 1577836800]
    ∧ (exec_one c7_env c7_action).1.status = Status.EXECUTED
    ∧ (exec_one c7_env c7_action).1.result
        = some (RVal.sched (ScheduleResult.ok "Q123" 1577836800))
    ∧ (exec_one c7_env c7_action).1.result ≠ some (RVal.str "skipped: past-due") := by
  refine ⟨by norm_num [c7_env], rfl, rfl, rfl, by decide⟩

/-! Lemmas about mention deduplication. -/

lemma key_lookup_upsert (l : List (String × Mention)) (m : Mention) (ts : String) :
    (ts_upsert l m).find? (fun r => decide (r.1 = ts))
      = if ts = m.ts then some (m.ts, m) else l.find? (fun r => decide (r.1 = ts)) := by
  induction l with
  | nil =>
    by_cases h : ts = m.ts
    · subst h
      simp [ts_upsert, List.find?_cons]
    · simp [ts_upsert, List.find?_cons, h, Ne.symm h]
  | cons kv rest ih =>
    obtain ⟨k, v⟩ := kv
    by_cases hk : k = m.ts
    · subst hk
      by_cases h : ts = m.ts
      · subst h
        simp [ts_upsert, List.find?_cons]
      · simp [ts_upsert, List.find?_cons, h, Ne.symm h]
    · by_cases h : k = ts
      · subst h
        simp [ts_upsert, List.find?_cons, hk, fun hh : k = m.ts => hk hh]
      · simp [ts_upsert, List.find?_cons, hk, h, ih]

lemma key_lookup_foldl (ms : List Mention) :
    ∀ (acc : List (String × Mention)) (ts : String),
      ((ms.foldl ts_upsert acc).find? (fun r => decide (r.1 = ts)))
        = (match ms.reverse.find? (fun m => decide (m.ts = ts)) with
           | some m => some (m.ts, m)
           | none => acc.find? (fun r => decide (r.1 = ts))) := by
  induction ms with
  | nil => intro acc ts; simp
  | cons m rest ih =>
    intro acc ts
    rw [List.foldl_cons, ih (ts_upsert acc m) ts]
    rw [List.reverse_cons, List.find?_append]
    rcases hr : rest.reverse.find? (fun x => decide (x.ts = ts)) with _ | x
    · rw [hr]
      dsimp only [Option.or]
      rw [key_lookup_upsert]
      by_cases h : ts = m.ts
      · subst h
        simp [List.find?_cons]
      · simp [List.find?_cons, h, Ne.symm h]
    · rw [hr]
      dsimp only [Option.or]

lemma ts_upsert_key_inv (l : List (String × Mention)) (m : Mention)
    (h : ∀ r ∈ l, r.2.ts = r.1) : ∀ r ∈ ts_upsert l m, r.2.ts = r.1 := by
  induction l with
  | nil =>
    intro r hr
    simp [ts_upsert] at hr
    subst hr
    rfl
  | cons kv rest ih =>
    intro r hr
    rcases kv with ⟨k, v⟩
    by_cases hk : k = m.ts
    · subst hk
      simp [ts_upsert] at hr
      rcases hr with hr | hr
      · subst hr; rfl
      · exact h r (List.mem_cons_of_mem _ hr)
    · simp [ts_upsert, hk] at hr
      rcases hr with hr | hr
      · subst hr; exact h (k, v) (List.mem_cons_self _ _)
      · exact ih (fun r hh => h r (List.mem_cons_of_mem _ hh)) r hr

lemma foldl_upsert_key_inv (ms : List Mention) :
    ∀ (acc : List (String × Mention)), (∀ r ∈ acc, r.2.ts = r.1) →
      ∀ r ∈ ms.foldl ts_upsert acc, r.2.ts = r.1 := by
  induction ms with
  | nil => intro acc h; simpa using h
  | cons m rest ih =>
    intro acc h
    rw [List.foldl_cons]
    exact ih (ts_upsert acc m) (ts_upsert_key_inv acc m h)

lemma find?_congr_on (l : List (String × Mention)) (p q : String × Mention → Bool)
    (h : ∀ r ∈ l, p r = q r) : l.find? p = l.find? q := by
  induction l with
  | nil => rfl
  | cons r rest ih =>
    rw [List.find?_cons, List.find?_cons,
      h r (List.mem_cons_self _ _), ih (fun x hx => h x (List.mem_cons_of_mem _ hx))]

/-- C9 counterexample: two merged mentions share the event id "1" but
differ in their text; the Python dict comprehension keeps the LATER
occurrence, so the claim that the earliest occurrence survives is false
at this input. -/
theorem C9_counterexample :
    unique_mentions [Mention.mk "1" (some "U1") "C1" none "a",
        Mention.mk "1" (some "U1") "C1" none "b"]
      = [Mention.mk "1" (some "U1") "C1" none "b"]
    ∧ unique_mentions [Mention.mk "1" (some "U1") "C1" none "a",
        Mention.mk "1" (some "U1") "C1" none "b"]
      ≠ [Mention.mk "1" (some "U1") "C1" none "a"]
    ∧ Mention.mk "1" (some "U1") "C1" none "a"
      ≠ Mention.mk "1" (some "U1") "C1" none "b" := by
  refine ⟨rfl, by decide, by decide⟩

/-- C9 (amended) — deduplication by event id keeps the value of the
LAST occurrence of each id (placed at the position of the id's first
occurrence): looking any event id up in the deduplicated list gives
exactly the last element of the merged list carrying that id. -/
theorem C9_dedup_keeps_last_occurrence (ms : List Mention) (ts : String) :
    (unique_mentions ms).find? (fun m => decide (m.ts = ts))
      = ms.reverse.find? (fun m => decide (m.ts = ts)) := by
  unfold unique_mentions
  rw [List.find?_map]
  have hinv := foldl_upsert_key_inv ms [] (by intro r hr; cases hr)
  have hcongr : (ms.foldl ts_upsert []).find?
        ((fun m => decide (m.ts = ts)) ∘ (fun r => r.2))
      = (ms.foldl ts_upsert []).find? (fun r => decide (r.1 = ts)) := by
    apply find?_congr_on
    intro r hr
    simp [Function.comp, hinv r hr]
  rw [hcongr, key_lookup_foldl ms [] ts]
  rcases hr : ms.reverse.find? (fun m => decide (m.ts = ts)) with _ | x
  · rw [hr]
    rfl
  · rw [hr]
    rfl

/-! Helper lemmas about the report catch-up pass. -/

lemma has_sent_mark_self (db : MemoryDB) (key : String) :
    has_sent_report (mark_report_sent db key) key = true := by
  unfold mark_report_sent
  split
  · assumption
  · simp [has_sent_report, List.contains, List.elem_iff]

lemma has_sent_mark_mono (db : MemoryDB) (k k' : String)
    (h : has_sent_report db k = true) :
    has_sent_report (mark_report_sent db k') k = true := by
  unfold mark_report_sent
  split
  · exact h
  · simp only [has_sent_report, List.contains, List.elem_iff] at h ⊢
    simp [List.mem_append, h]

lemma rds_mono (env : ReportEnv) (ty today : String) (db : MemoryDB)
    (q : List Action) (k : String) (h : has_sent_report db k = true) :
    has_sent_report (run_daily_status_job env ty today db q).1 k = true := by
  unfold run_daily_status_job
  dsimp only
  repeat' split
  all_goals first
    | exact h
    | exact has_sent_mark_mono db k _ h

lemma rds_cases (env : ReportEnv) (ty today : String) (db : MemoryDB)
    (q : List Action) :
    run_daily_status_job env ty today db q = (db, q, [])
    ∨ ((run_daily_status_job env ty today db q).2.2 = [daily_report_key ty today]
        ∧ has_sent_report (run_daily_status_job env ty today db q).1
            (daily_report_key ty today) = true
        ∧ has_sent_report db (daily_report_key ty today) = false) := by
  unfold run_daily_status_job
  by_cases h1 : has_sent_report db (daily_report_key ty today) = true
  · rw [if_pos h1]
    exact Or.inl rfl
  · rw [if_neg h1]
    by_cases hg : env.genOk = true
    · rw [if_neg (by simpa using hg)]
      rcases hf : env.firstChannel with _ | ch
      · exact Or.inl rfl
      · refine Or.inr ⟨rfl, has_sent_mark_self db _, ?_⟩
        simpa using h1
    · rw [if_pos (by simpa using hg)]
      exact Or.inl rfl

lemma good_trace_init (key : String) (db : MemoryDB) (q : List Action) :
    GoodTrace key (db, q, []) := by
  constructor
  · simp
  · intro h
    cases h

lemma catch_up_slot_good (env : ReportEnv) (gate : Bool) (ty today key : String)
    (s : MemoryDB × List Action × List String) (h : GoodTrace key s) :
    GoodTrace key (catch_up_slot env gate ty today s) := by
  unfold catch_up_slot
  split
  · rename_i hcond
    obtain ⟨hg, hns⟩ := hcond
    dsimp only
    rcases rds_cases env ty today s.1 s.2.1 with hcase | ⟨ht, hmark, hnot⟩
    · rw [hcase]
      constructor
      · simpa using h.1
      · intro hk
        exact h.2 (by simpa using hk)
    · constructor
      · rw [List.count_append]
        by_cases hkey : key = daily_report_key ty today
        · have h0 : List.count key s.2.2 = 0 := by
            by_contra hc
            have hmem : key ∈ s.2.2 := List.count_pos_iff.mp (Nat.pos_of_ne_zero hc)
            have hsent := h.2 hmem
            rw [hkey] at hsent
            exact hns hsent
          rw [h0, ht, hkey]
          simp
        · rw [ht]
          have h0 : List.count key [daily_report_key ty today] = 0 := by
            simp [List.count_eq_zero, hkey]
          rw [h0]
          simpa using h.1
      · intro hk
        rw [List.mem_append] at hk
        rcases hk with hk | hk
        · exact rds_mono env ty today s.1 s.2.1 key (h.2 hk)
        · rw [ht, List.mem_singleton] at hk
          rw [hk]
          exact hmark
  · exact h

lemma catch_up_slot_shift (env : ReportEnv) (gate : Bool) (ty today : String)
    (s : MemoryDB × List Action × List String) :
    catch_up_slot env gate ty today s
      = ((catch_up_slot env gate ty today (s.1, s.2.1, [])).1,
         (catch_up_slot env gate ty today (s.1, s.2.1, [])).2.1,
         s.2.2 ++ (catch_up_slot env gate ty today (s.1, s.2.1, [])).2.2) := by
  obtain ⟨d, ql, tr⟩ := s
  unfold catch_up_slot
  dsimp only
  by_cases hc : gate = true ∧ ¬has_sent_report d (daily_report_key ty today) = true
  · rw [if_pos hc, if_pos hc]
    simp
  · rw [if_neg hc, if_neg hc]
    simp

/-- C6 — report-once-per-slot: across two startup catch-up passes on the
same day (any hours, any generation outcomes), no report key is
generated and enqueued more than once in total; a first successful run
records the ReportMarker and every later run finds it and returns
without queueing anything for that key. -/
theorem C6_report_once_per_slot (env1 env2 : ReportEnv) (h1 h2 : Int)
    (today : String) (db : MemoryDB) (q : List Action) (key : String) :
    List.count key
      ((check_and_send_missed_reports env1 h1 today db q).2.2
        ++ (check_and_send_missed_reports env2 h2 today
              (check_and_send_missed_reports env1 h1 today db q).1
              (check_and_send_missed_reports env1 h1 today db q).2.1).2.2) ≤ 1 := by
  unfold check_and_send_missed_reports
  have hg : GoodTrace key
      (catch_up_slot env2 (decide (h2 ≥ 18)) "evening" today
        (catch_up_slot env2 (decide (h2 ≥ 10)) "morning" today
          (catch_up_slot env1 (decide (h1 ≥ 18)) "evening" today
            (catch_up_slot env1 (decide (h1 ≥ 10)) "morning" today (db, q, []))))) :=
    catch_up_slot_good _ _ _ _ _ _
      (catch_up_slot_good _ _ _ _ _ _
        (catch_up_slot_good _ _ _ _ _ _
          (catch_up_slot_good _ _ _ _ _ _ (good_trace_init key db q))))
  have hA := catch_up_slot_shift env2 (decide (h2 ≥ 10)) "morning" today
    (catch_up_slot env1 (decide (h1 ≥ 18)) "evening" today
      (catch_up_slot env1 (decide (h1 ≥ 10)) "morning" today (db, q, [])))
  have hB := catch_up_slot_shift env2 (decide (h2 ≥ 18)) "evening" today
    (catch_up_slot env2 (decide (h2 ≥ 10)) "morning" today
      (catch_up_slot env1 (decide (h1 ≥ 18)) "evening" today
        (catch_up_slot env1 (decide (h1 ≥ 10)) "morning" today (db, q, []))))
  have hC := catch_up_slot_shift env2 (decide (h2 ≥ 18)) "evening" today
    (catch_up_slot env2 (decide (h2 ≥ 10)) "morning" today
      ((catch_up_slot env1 (decide (h1 ≥ 18)) "evening" today
          (catch_up_slot env1 (decide (h1 ≥ 10)) "morning" today (db, q, []))).1,
       (catch_up_slot env1 (decide (h1 ≥ 18)) "evening" today
          (catch_up_slot env1 (decide (h1 ≥ 10)) "morning" today (db, q, []))).2.1,
       []))
  have hcount := hg.1
  rw [hB] at hcount
  dsimp only at hcount
  rw [hA] at hcount
  dsimp only at hcount
  rw [hC]
  dsimp only
  rw [← List.append_assoc]
  exact hcount

end PMAgent
